import Mathlib

/-!
Shallow embedding of the `LeoChen_chatbox` UI test-automation suite.

The embedding covers the parts of the repository that the verified
properties are about:

* `src/object/base_page.py` — the wait/poll engine (`wait_and_get_element`,
  `wait_and_check_if_element_exist_or_visible`), the exception re-raise
  discipline (`get_exception` / `meta_raise`), the action façade
  (`click_element`, `clear_text_field`, `set_text_field`,
  `get_attribute_content`, `wait_for_element_attribute_content`), the
  navigation guard (`go_to_link`, `refresh_page`,
  `override_beforeunload_events`) and the virtualized-scroll primitive
  (`get_scroll_height`, `scroll_and_get_until_element_exist_or_visible`).
* `src/conftest.py` — the dynamic fixture scope (`pytest_addoption`,
  `determine_scope`), the driver/session fixtures (`init_driver`,
  `init_session`) and the incremental-skip hooks
  (`pytest_runtest_makereport`, `pytest_runtest_call`).

The live document is modelled as a discrete-time trace: the Selenium
`WebDriverWait` polls the DOM at a fixed interval, which we discretize to
one poll per tick `t = 0, 1, ..., timeout`.  Python exceptions are
modelled as explicit values carried in `Except`; a function that can
raise returns `Except PyExc α`, a `try/except` block is a `match` on that
result.  Effects that matter to the properties (scripts executed,
navigations performed, scroll commands issued, driver teardown) are
recorded in explicit event traces.
-/

set_option autoImplicit false

/-! ## Selenium exceptions and the meta-raise discipline -/

/-- Exception classes imported at the top of `base_page.py`
(`selenium.common`). -/
inductive ExcType where
  | timeoutException
  | noSuchElementException
  | elementNotVisibleException
  | elementClickInterceptedException
  | elementNotInteractableException
  | unexpectedAlertPresentException
deriving DecidableEq, Repr

/-- A Python exception instance as the code observes it: its class
(`type(e)`), its `msg` argument (the `msg` of the Selenium WebDriverException,
stored here already stringified, since every observation of it goes
through `str`), and the traceback attached to it (modelled as a list of
frame names). -/
structure PyExc where
  ty : ExcType
  msg : String
  tb : List String
deriving DecidableEq, Repr

/-- Embeds the Selenium WebDriverException string form: it renders as
`"Message: {self.msg}\n"` (screen and stacktrace being `None` in the
cases at hand). -/
def strOfExc (e : PyExc) : String :=
  "Message: " ++ e.msg ++ "\n"

/-- The triple returned by `sys.exc_info()`: exception class, exception
instance, traceback. -/
structure ExcInfo where
  ty : ExcType
  value : PyExc
  tb : List String
deriving DecidableEq, Repr

/-- Embeds `BasePage.get_exception`: returns `sys.exc_info()` for the exception
currently being handled. -/
def get_exception (e : PyExc) : ExcInfo :=
  ⟨e.ty, e, e.tb⟩

/-- Embeds `BasePage.meta_raise`: executes
`raise exc_info[0](exc_info[1]).with_traceback(exc_info[2])`.
`exc_info[0](exc_info[1])` constructs a NEW exception of the original
class whose `msg` argument is the original exception instance (which
stringifies via `strOfExc`); `.with_traceback(exc_info[2])` attaches the
original traceback. -/
def meta_raise (info : ExcInfo) : PyExc :=
  ⟨info.ty, strOfExc info.value, info.tb⟩

/-! ## The DOM trace and the wait/poll engine -/

/-- What the two expected conditions used by the wait engine can observe
about the target of one locator at one poll tick. -/
structure ElemStatus where
  present : Bool
  visible : Bool
deriving DecidableEq, Repr

/-- The live document restricted to one locator, indexed by poll tick.
The locator is re-evaluated against the document at every use, so the
trace is a function of time. -/
def DomTrace : Type := Nat → ElemStatus

/-- Embeds `EC.all_of(EC.visibility_of_element_located(element),
EC.presence_of_element_located(element))` evaluated at tick `t`. -/
def presentAndVisible (dom : DomTrace) (t : Nat) : Bool :=
  (dom t).visible && (dom t).present

/-- Embeds `WebDriverWait(driver, timeout).until(cond)`: polls `cond` once per
tick at ticks `0, 1, ..., timeout`; returns the first tick at which the
condition holds, `none` when it never does within the timeout. -/
def webdriver_wait_until (cond : Nat → Bool) (timeout : Nat) : Option Nat :=
  (List.range (timeout + 1)).find? cond

/-- The `TimeoutException` raised by `WebDriverWait.until` when the
condition never holds: its message is empty (`TimeoutException(message)`
with `message = ""`), raised inside `WebDriverWait.until`. -/
def timeoutErr : PyExc :=
  ⟨ExcType.timeoutException, "", ["WebDriverWait.until"]⟩

/-- The `NoSuchElementException` raised by `driver.find_element` when the
locator matches nothing. -/
def noSuchErr : PyExc :=
  ⟨ExcType.noSuchElementException, "no such element", ["WebDriver.find_element"]⟩

/-- Embeds `self.driver.find_element(*element)` at tick `t`: resolves the
element (identified here by the tick of resolution) when present, raises
`NoSuchElementException` otherwise. -/
def find_element (dom : DomTrace) (t : Nat) : Except PyExc Nat :=
  if (dom t).present then Except.ok t else Except.error noSuchErr

/-- Embeds `BasePage.wait_and_get_element` (base_page.py lines 197-216): waits
for presence and visibility, then finds the element; on
`TimeoutException`, `NoSuchElementException` or
`ElementNotVisibleException` it captures `sys.exc_info()` and
meta-raises. -/
def wait_and_get_element (dom : DomTrace) (timeout : Nat) : Except PyExc Nat :=
  match webdriver_wait_until (presentAndVisible dom) timeout with
  | some t =>
    match find_element dom t with
    | Except.ok e => Except.ok e
    | Except.error err => Except.error (meta_raise (get_exception err))
  | none => Except.error (meta_raise (get_exception timeoutErr))

/-- Embeds `BasePage.wait_and_check_if_element_exist_or_visible` (base_page.py
lines 564-582): the same wait, but the `try` block returns `True` and
the `except` clause for the same three exception classes returns
`False`; it is total (never raises), which is why its result type is
`Bool` and not `Except`. -/
def wait_and_check_if_element_exist_or_visible (dom : DomTrace) (timeout : Nat) : Bool :=
  match webdriver_wait_until (presentAndVisible dom) timeout with
  | some _ => true
  | none => false

/-! ## Text fields (`clear_text_field`, `set_text_field`) -/

/-- The state of one text field: its `value` attribute. -/
structure TextField where
  value : String
deriving DecidableEq, Repr

/-- Embeds `WebElement.clear()`: resets the content of the field. -/
def element_clear (_f : TextField) : TextField :=
  ⟨""⟩

/-- Embeds `WebElement.send_keys(text)`: types `text` into the field, appending
to whatever content it currently holds. -/
def element_send_keys (f : TextField) (text : String) : TextField :=
  ⟨f.value ++ text⟩

/-- Embeds `BasePage.clear_text_field` (base_page.py lines 137-144):
`self.wait_and_get_element(element, timeout).clear()`.  Failures of the
wait propagate. -/
def clear_text_field (dom : DomTrace) (f : TextField) (timeout : Nat) : Except PyExc TextField :=
  match wait_and_get_element dom timeout with
  | Except.ok _ => Except.ok (element_clear f)
  | Except.error e => Except.error e

/-- Embeds `BasePage.set_text_field` (base_page.py lines 156-165): first
`self.clear_text_field(element, timeout)`, then
`self.driver.find_element(*element).send_keys(text)`.  The second
`find_element` re-resolves the same locator against the same document
the wait just succeeded on. -/
def set_text_field (dom : DomTrace) (f : TextField) (text : String) (timeout : Nat) : Except PyExc TextField :=
  match clear_text_field dom f timeout with
  | Except.ok f2 => Except.ok (element_send_keys f2 text)
  | Except.error e => Except.error e

/-! ## `click_element` and its action-chain fallback -/

/-- The two exception classes caught by the `except` clause of `click_element`
clause: `ElementClickInterceptedException` and
`ElementNotInteractableException`. -/
def isInteractionExc (t : ExcType) : Bool :=
  match t with
  | ExcType.elementClickInterceptedException => true
  | ExcType.elementNotInteractableException => true
  | _ => false

/-- The click attempts `click_element` can make, recorded as a trace. -/
inductive ClickAttempt where
  | direct
  | actionChain
deriving DecidableEq, Repr

/-- Environment of one `click_element` call: the document trace the
locator resolves against, the outcome of a direct `element.click()`, and
the outcome of the fallback `self.action.click(element).perform()`. -/
structure ClickEnv where
  dom : DomTrace
  direct : Except PyExc Unit
  chain : Except PyExc Unit

/-- Embeds `BasePage.click_element` (base_page.py lines 120-135): the `try`
block resolves the locator (when given a tuple) and calls `.click()`;
the `except (ElementClickInterceptedException,
ElementNotInteractableException)` clause re-resolves (when given a
tuple) and performs an action-chain click.  Any other exception — in
particular a meta-raised resolution failure — propagates.  Returns the
result together with the trace of click attempts actually performed. -/
def click_element (env : ClickEnv) (isTuple : Bool) (timeout : Nat) :
    Except PyExc Unit × List ClickAttempt :=
  let tryRes : Except PyExc Unit × List ClickAttempt :=
    if isTuple then
      match wait_and_get_element env.dom timeout with
      | Except.ok _ => (env.direct, [ClickAttempt.direct])
      | Except.error e => (Except.error e, [])
    else (env.direct, [ClickAttempt.direct])
  match tryRes with
  | (Except.ok _, tr) => (Except.ok (), tr)
  | (Except.error e, tr) =>
    if isInteractionExc e.ty then
      if isTuple then
        match wait_and_get_element env.dom timeout with
        | Except.ok _ => (env.chain, tr ++ [ClickAttempt.actionChain])
        | Except.error e2 => (Except.error e2, tr)
      else (env.chain, tr ++ [ClickAttempt.actionChain])
    else (Except.error e, tr)

/-! ## Attribute reads and `wait_for_element_attribute_content` -/

/-- Embeds `BasePage.get_attribute_content` (base_page.py lines 355-364):
`self.wait_and_get_element(element, timeout).get_attribute(attribute_name)`.
`attr` gives the content of the attribute at each poll tick; the read happens
at the tick the wait resolved at. -/
def get_attribute_content (dom : DomTrace) (attr : Nat → String) (timeout : Nat) :
    Except PyExc String :=
  match wait_and_get_element dom timeout with
  | Except.ok t => Except.ok (attr t)
  | Except.error e => Except.error e

/-- Embeds `BasePage.wait_for_element_attribute_content` (base_page.py lines
307-320): reads the attribute once via `get_attribute_content`; when the
value differs from `expected_content` it executes `time.sleep(timeout)`
and returns; there is no loop and no second read.  The Python method
returns `None`; to make its behaviour observable the embedding returns
the number of ticks slept after the read together with the single value
that was read. -/
def wait_for_element_attribute_content (dom : DomTrace) (attr : Nat → String)
    (expected : String) (timeout : Nat) : Except PyExc (Nat × String) :=
  match get_attribute_content dom attr timeout with
  | Except.ok v => if v ≠ expected then Except.ok (timeout, v) else Except.ok (0, v)
  | Except.error e => Except.error e

/-! ## Navigation guard (`go_to_link`, `refresh_page`,
`override_beforeunload_events`) -/

/-- Driver-level effects of the navigation guard, in execution order.
A script event is recorded only when the corresponding
`execute_script` call completed without raising. -/
inductive NavEvent where
  | nukeBody
  | navigate (url : String)
  | refresh
  | overrideReturnValue
  | overrideOnBeforeUnload
deriving DecidableEq, Repr

/-- Whether an event is the navigation (or refresh) itself. -/
def isNavEvent (e : NavEvent) : Bool :=
  match e with
  | NavEvent.navigate _ => true
  | NavEvent.refresh => true
  | _ => false

/-- Whether an event is one of the two `beforeunload`-neutralizing
script installations performed by `override_beforeunload_events`. -/
def isOverrideEvent (e : NavEvent) : Bool :=
  match e with
  | NavEvent.overrideReturnValue => true
  | NavEvent.overrideOnBeforeUnload => true
  | _ => false

/-- Does an override installation occur strictly before the first
navigation/refresh event of the trace? -/
def overrideInstalledBefore (evs : List NavEvent) : Bool :=
  (evs.takeWhile (fun e => !isNavEvent e)).any isOverrideEvent

/-- Are both override installations present after the first
navigation/refresh event of the trace? -/
def overridesInstalledAfter (evs : List NavEvent) : Bool :=
  let post := evs.dropWhile (fun e => !isNavEvent e)
  post.any (fun e => e == NavEvent.overrideReturnValue) &&
    post.any (fun e => e == NavEvent.overrideOnBeforeUnload)

/-- The `UnexpectedAlertPresentException` the browser raises when a
native dialog is open. -/
def alertErr : PyExc :=
  ⟨ExcType.unexpectedAlertPresentException, "unexpected alert open", ["WebDriver"]⟩

/-- Environment of one navigation call: whether `driver.get` /
`driver.refresh` raises `UnexpectedAlertPresentException`, and whether
the override-installing `execute_script` does. -/
structure NavEnv where
  getRaises : Bool
  scriptRaises : Bool
deriving DecidableEq, Repr

/-- Embeds `BasePage.override_beforeunload_events` (base_page.py lines 86-100):
two `execute_script` calls, one overriding
`BeforeUnloadEvent.prototype.returnValue`, one clearing
`window.onbeforeunload`.  When the first script raises (an alert is
open) the second never runs. -/
def override_beforeunload_events (scriptRaises : Bool) :
    Except PyExc Unit × List NavEvent :=
  if scriptRaises then (Except.error alertErr, [])
  else (Except.ok (), [NavEvent.overrideReturnValue, NavEvent.overrideOnBeforeUnload])

/-- Embeds `BasePage.go_to_link` (base_page.py lines 51-67): optionally nukes
the page body, then inside `try`: `driver.get(url)` followed by
`override_beforeunload_events()`; `except UnexpectedAlertPresentException`
captures `sys.exc_info()` and meta-raises.  Returns the result together
with the trace of completed effects. -/
def go_to_link (env : NavEnv) (url : String) (nuke : Bool) :
    Except PyExc Unit × List NavEvent :=
  let pre : List NavEvent := if nuke then [NavEvent.nukeBody] else []
  if env.getRaises then
    (Except.error (meta_raise (get_exception alertErr)), pre)
  else
    match override_beforeunload_events env.scriptRaises with
    | (Except.ok _, evs) => (Except.ok (), pre ++ NavEvent.navigate url :: evs)
    | (Except.error e, evs) =>
      (Except.error (meta_raise (get_exception e)), pre ++ NavEvent.navigate url :: evs)

/-- Embeds `BasePage.refresh_page` (base_page.py lines 69-84): identical to
`go_to_link` with `driver.refresh()` in place of `driver.get(url)`. -/
def refresh_page (env : NavEnv) (nuke : Bool) :
    Except PyExc Unit × List NavEvent :=
  let pre : List NavEvent := if nuke then [NavEvent.nukeBody] else []
  if env.getRaises then
    (Except.error (meta_raise (get_exception alertErr)), pre)
  else
    match override_beforeunload_events env.scriptRaises with
    | (Except.ok _, evs) => (Except.ok (), pre ++ NavEvent.refresh :: evs)
    | (Except.error e, evs) =>
      (Except.error (meta_raise (get_exception e)), pre ++ NavEvent.refresh :: evs)

/-! ## Virtualized-container scrolling -/

/-- Driver-level effects of the scroll primitive. -/
inductive ScrollEvent where
  | readHeight (value : Nat)
  | scrollTo (height : Nat)
deriving DecidableEq, Repr

/-- Whether an event is a `scrollHeight` read. -/
def isReadHeight (e : ScrollEvent) : Bool :=
  match e with
  | ScrollEvent.readHeight _ => true
  | _ => false

/-- Environment of one scroll call: the document traces the scrollable
container and the target resolve against, and the value the `n`-th
`return arguments[0].scrollHeight` read would return (content loaded
while scrolling can change it between reads). -/
structure ScrollEnv where
  scrollableDom : DomTrace
  targetDom : DomTrace
  heightAtRead : Nat → Nat

/-- The `while height < scroll_height + step` loop of
`scroll_and_get_until_element_exist_or_visible`: issues
`js_scroll_to(scrollable_element, height=height)` and increments
`height` by `step` until the bound — fixed from the single initial
`scroll_height` read — is passed.  The loop body never re-reads the
height and never consults the target element.  The source default
`step` is 100; `hstep` records that the loop only terminates for a
positive step. -/
def scrollLoop (sh step : Nat) (hstep : 0 < step) (h : Nat) : List ScrollEvent :=
  if h < sh + step then ScrollEvent.scrollTo h :: scrollLoop sh step hstep (h + step)
  else []
termination_by sh + step - h
decreasing_by omega

/-- Embeds `BasePage.scroll_and_get_until_element_exist_or_visible`
(base_page.py lines 634-656): resolves the scrollable container (with a
hard-coded timeout of 5), sleeps one second, reads `scrollHeight` once
via `get_scroll_height`, resets the `height` parameter to 0, scrolls in
`step` increments past the initially read height, and finally returns
`self.wait_and_get_element(element)` (default timeout 15).  The
`timeout`, `width` and `height` parameters are accepted but have no
effect on the result (the source never uses `timeout` or `width`, and
overwrites `height` with 0).  Returns the result together with the
trace of completed effects. -/
def scroll_and_get_until_element_exist_or_visible (env : ScrollEnv)
    (_timeout _width _height : Nat) (step : Nat) (hstep : 0 < step) :
    Except PyExc Nat × List ScrollEvent :=
  match wait_and_get_element env.scrollableDom 5 with
  | Except.error e => (Except.error e, [])
  | Except.ok _ =>
    let sh := env.heightAtRead 0
    (wait_and_get_element env.targetDom 15,
      ScrollEvent.readHeight sh :: scrollLoop sh step hstep 0)

/-! ## conftest.py: dynamic scope selection -/

/-- The four boolean CLI options registered by `pytest_addoption`
(conftest.py lines 15-35), each with `action=store_true` and
`default=False`. -/
structure Config where
  session : Bool
  package : Bool
  module : Bool
  «class» : Bool
deriving DecidableEq, Repr

/-- The configuration when none of the four flags is passed on the
command line: every `store_true` option keeps its `default=False`. -/
def defaultConfig : Config :=
  ⟨false, false, false, false⟩

/-- Embeds `determine_scope` (conftest.py lines 38-56): four sequential
`config.getoption` checks, `--session` first, then `--package`,
`--module`, `--class`; `"function"` when none is set. -/
def determine_scope (config : Config) : String :=
  if config.session then "session"
  else if config.package then "package"
  else if config.module then "module"
  else if config.«class» then "class"
  else "function"

/-! ## conftest.py: driver and session fixtures -/

/-- The browser parameter of `init_driver`; the fixture is declared with
`params=["chrome"]`, and also handles `"safari"`. -/
inductive BrowserKind where
  | chrome
  | safari
deriving DecidableEq, Repr

/-- Observable lifecycle events of one fixture scope. -/
inductive LifeEvent where
  | driverCreated (param : BrowserKind)
  | clsDriverSet
  | sessionCreated
  | clsSessionSet
  | testRan (failed : Bool)
  | driverQuit
  | sessionClosed
deriving DecidableEq, Repr

/-- One run of the `init_driver` fixture (conftest.py lines 59-94) over
its scope.  Setup (before `yield`): construct the WebDriver for the
requested browser and, for `"function"` or `"class"` scope, assign it to
`request.cls.driver`.  Then the test runner executes every test of the
scope (`tests` lists whether each one failed); pytest resumes the
generator at scope exit regardless of test outcomes (modelled from the
spec: "teardown must not be skipped" — the runner itself is an external
collaborator).  Teardown (after `yield`): `web_driver.quit()`,
unconditionally. -/
def init_driver_run (scope : String) (param : BrowserKind) (tests : List Bool) :
    List LifeEvent :=
  [LifeEvent.driverCreated param]
    ++ (if scope = "function" ∨ scope = "class" then [LifeEvent.clsDriverSet] else [])
    ++ tests.map LifeEvent.testRan
    ++ [LifeEvent.driverQuit]

/-- One run of the `init_session` fixture (conftest.py lines 97-108)
over its scope: `requests.Session()` before `yield` (assigned to
`request.cls.session` for `"function"`/`"class"` scope),
`session.close()` after `yield`, unconditionally. -/
def init_session_run (scope : String) (tests : List Bool) : List LifeEvent :=
  [LifeEvent.sessionCreated]
    ++ (if scope = "function" ∨ scope = "class" then [LifeEvent.clsSessionSet] else [])
    ++ tests.map LifeEvent.testRan
    ++ [LifeEvent.sessionClosed]

/-! ## conftest.py: incremental-skip hooks -/

/-- One test item under a common parent, as the two hooks see it: its
name (`item.name`), whether `"incremental" in item.keywords`, and
whether executing its call phase would fail (raising, so that
`call.excinfo is not None`). -/
structure Item where
  name : String
  incremental : Bool
  callFails : Bool
deriving DecidableEq, Repr

/-- The outcome pytest records for the call phase of one item. -/
inductive Outcome where
  | passed
  | failed
  | skipped (reason : String)
deriving DecidableEq, Repr

/-- The f-string passed to `pytest.skip` in `pytest_runtest_call`
(conftest.py line 201). -/
def skipReason (previous_failed : Item) : String :=
  "Skipping current test after failure of the previous test: " ++ previous_failed.name

/-- Embeds `pytest_runtest_call` (conftest.py lines 188-201):
`previous_failed = getattr(item.parent, "_previous_failed", None)`;
when it is set and the item is marked incremental, `pytest.skip(...)`
with a reason naming the failed test.  Returns the skip reason when the
item is to be skipped instead of executed. -/
def pytest_runtest_call (previousFailed : Option Item) (item : Item) : Option String :=
  match previousFailed with
  | some prev => if item.incremental then some (skipReason prev) else none
  | none => none

/-- The marker update of `pytest_runtest_makereport` (conftest.py lines
177-181): when the call phase failed (`rep.outcome == "failed"`, so
`call.excinfo is not None`) and the item is marked incremental, set
`item.parent._previous_failed = item`; otherwise the marker is left
unchanged. -/
def makereport_update (previousFailed : Option Item) (item : Item)
    (callFailed : Bool) : Option Item :=
  if callFailed && item.incremental then some item else previousFailed

/-- The trip of one item through the two hooks: `pytest_runtest_call` may
skip it; otherwise its call phase runs (failing iff `item.callFails`)
and `pytest_runtest_makereport` updates the marker on the parent.  Returns
the recorded outcome and the new marker. -/
def runItem (previousFailed : Option Item) (item : Item) : Outcome × Option Item :=
  match pytest_runtest_call previousFailed item with
  | some reason => (Outcome.skipped reason, previousFailed)
  | none =>
    ((if item.callFails then Outcome.failed else Outcome.passed),
      makereport_update previousFailed item item.callFails)

/-- Run a list of items under one parent in declared order, threading
the `_previous_failed` marker; returns the outcomes in order. -/
def runAll (previousFailed : Option Item) : List Item → List Outcome
  | [] => []
  | item :: rest =>
    let r := runItem previousFailed item
    r.1 :: runAll r.2 rest

/-! ## Specification-side predicates and concrete witness environments -/

/-- What `meta_raise (get_exception orig)` observably does to the caught
exception `orig`: the raised exception is the freshly constructed one,
its class and traceback are those of `orig`, and its message is the
stringification of `orig` (not the message of `orig`). -/
def isMetaRaiseOf (e orig : PyExc) : Prop :=
  e = meta_raise (get_exception orig) ∧ e.ty = orig.ty ∧ e.tb = orig.tb ∧
    e.msg = strOfExc orig

/-- A document trace on which the target is present and visible at every
poll tick. -/
def domAlways : DomTrace :=
  fun _ => ⟨true, true⟩

/-- A document trace on which the target never appears. -/
def domNever : DomTrace :=
  fun _ => ⟨false, false⟩

/-- Attribute trace for the `wait_for_element_attribute_content`
counterexample: the attribute holds `"a"` at tick 0 and the expected
content `"b"` from tick 1 on. -/
def attrC : Nat → String :=
  fun t => if t = 0 then "a" else "b"

/-- Click environment for the fallback witness: resolution succeeds, the
direct click is intercepted, the action-chain click succeeds. -/
def clickEnvW : ClickEnv :=
  ⟨domAlways,
    Except.error ⟨ExcType.elementClickInterceptedException, "element click intercepted",
      ["WebElement.click"]⟩,
    Except.ok ()⟩

/-- Scroll environment for the single-height-read witness: everything
resolves, the container reports scroll height 100 at every read. -/
def scrollEnvW : ScrollEnv :=
  ⟨domAlways, domAlways, fun _ => 100⟩

/-- Scroll environment for the counterexample: the target is present and
visible from the very first tick, and the scroll height a second read
would return (1000) differs from the initially read one (100). -/
def scrollEnvC : ScrollEnv :=
  ⟨domAlways, domAlways, fun n => if n = 0 then 100 else 1000⟩

/-- Incremental group for the skip-law witness: three tests marked
incremental, the second of which fails during its call phase. -/
def itemsW : List Item :=
  [⟨"t1", true, false⟩, ⟨"t2", true, true⟩, ⟨"t3", true, false⟩]

/-! # Theorems -/

/-! ## Shared lemmas about the wait/poll engine -/

/-- The wait resolves exactly when some poll tick within the timeout
satisfies the condition. -/
theorem webdriver_wait_until_isSome_iff (cond : Nat → Bool) (timeout : Nat) :
    (webdriver_wait_until cond timeout).isSome = true ↔
      ∃ t, t ≤ timeout ∧ cond t = true := by
  unfold webdriver_wait_until
  rw [List.find?_isSome]
  constructor
  · rintro ⟨t, ht, hc⟩
    exact ⟨t, Nat.lt_succ_iff.mp (List.mem_range.mp ht), hc⟩
  · rintro ⟨t, ht, hc⟩
    exact ⟨t, List.mem_range.mpr (Nat.lt_succ_iff.mpr ht), hc⟩

/-- A tick returned by the wait satisfies the condition and lies within
the timeout. -/
theorem webdriver_wait_until_some (cond : Nat → Bool) (timeout t : Nat)
    (h : webdriver_wait_until cond timeout = some t) :
    cond t = true ∧ t ≤ timeout := by
  refine ⟨List.find?_some h, ?_⟩
  have := List.mem_of_find?_eq_some h
  exact Nat.lt_succ_iff.mp (List.mem_range.mp this)

/-- When the wait resolves at tick `t`, `wait_and_get_element` succeeds
and returns the element resolved at `t`. -/
theorem wait_and_get_element_ok_of_until (dom : DomTrace) (timeout t : Nat)
    (h : webdriver_wait_until (presentAndVisible dom) timeout = some t) :
    wait_and_get_element dom timeout = Except.ok t := by
  have hc : presentAndVisible dom t = true := (webdriver_wait_until_some _ _ _ h).1
  have hp : (dom t).present = true := by
    unfold presentAndVisible at hc
    simp at hc
    exact hc.2
  unfold wait_and_get_element find_element
  rw [h]
  simp [hp]

/-- Embeds `wait_and_get_element` fails exactly when no poll tick within the
timeout shows the element present and visible. -/
theorem wait_and_get_element_error_iff (dom : DomTrace) (timeout : Nat) :
    (∃ e, wait_and_get_element dom timeout = Except.error e) ↔
      webdriver_wait_until (presentAndVisible dom) timeout = none := by
  constructor
  · rintro ⟨e, he⟩
    cases hu : webdriver_wait_until (presentAndVisible dom) timeout with
    | none => rfl
    | some t =>
      rw [wait_and_get_element_ok_of_until dom timeout t hu] at he
      cases he
  · intro hu
    refine ⟨meta_raise (get_exception timeoutErr), ?_⟩
    unfold wait_and_get_element
    rw [hu]

/-- Every error `wait_and_get_element` produces is the meta-raise of one
of the two concrete exceptions its `try` block can catch (the timeout
from the wait, or the missing element from `find_element`). -/
theorem wait_and_get_element_error_cases (dom : DomTrace) (timeout : Nat) (e : PyExc)
    (h : wait_and_get_element dom timeout = Except.error e) :
    e = meta_raise (get_exception timeoutErr) ∨ e = meta_raise (get_exception noSuchErr) := by
  cases hu : webdriver_wait_until (presentAndVisible dom) timeout with
  | none =>
    unfold wait_and_get_element at h
    rw [hu] at h
    injection h with h1
    exact Or.inl h1.symm
  | some t =>
    by_cases hp : (dom t).present = true
    · rw [wait_and_get_element_ok_of_until dom timeout t hu] at h
      cases h
    · unfold wait_and_get_element find_element at h
      rw [hu] at h
      simp [hp] at h
      exact Or.inr h.symm

/-! ## C2 — meta-raise on resolution failure -/

/-- C2 (amended).  For every document trace and timeout, when
`wait_and_get_element` fails it raises the meta-raise of the exception
it caught: the raised exception has the class of the caught exception and the
original traceback attached, but it is a newly constructed instance
whose message is the stringification of the caught exception — not the
caught exception itself and not its message.  It never swallows the
failure and never changes the exception class. -/
theorem wait_and_get_element_meta_raise (dom : DomTrace) (timeout : Nat) (e : PyExc)
    (h : wait_and_get_element dom timeout = Except.error e) :
    isMetaRaiseOf e timeoutErr ∨ isMetaRaiseOf e noSuchErr := by
  rcases wait_and_get_element_error_cases dom timeout e h with h1 | h1
  · subst h1
    exact Or.inl ⟨rfl, rfl, rfl, rfl⟩
  · subst h1
    exact Or.inr ⟨rfl, rfl, rfl, rfl⟩

/-- Witness for C2: on a document where the element never appears, the
zero-timeout wait fails and the theorem applies, exhibiting the raised
exception as the meta-raise of the caught `TimeoutException`. -/
theorem wait_and_get_element_meta_raise_witness :
    isMetaRaiseOf (meta_raise (get_exception timeoutErr)) timeoutErr := by
  have h := wait_and_get_element_meta_raise domNever 0
    (meta_raise (get_exception timeoutErr)) rfl
  rcases h with h | h
  · exact h
  · exact absurd h.1 (by decide)

/-- Counterexample to C2 as stated: the exception `wait_and_get_element`
raises on a timed-out resolution is NOT the caught exception re-raised
unchanged — it differs from the caught `TimeoutException` both as a
value and in its message (the claim asserts "same exception identity and
message"). -/
theorem wait_and_get_element_not_unchanged :
    wait_and_get_element domNever 0 = Except.error (meta_raise (get_exception timeoutErr))
    ∧ (meta_raise (get_exception timeoutErr)).msg ≠ timeoutErr.msg
    ∧ meta_raise (get_exception timeoutErr) ≠ timeoutErr := by
  refine ⟨rfl, by decide, by decide⟩

/-! ## C4 — the existence-check variant never raises -/

/-- C4.  For every document trace and timeout, the boolean
existence-check variant (total by construction — it returns `Bool`, not
`Except`, so it never raises) returns `true` exactly when the element
becomes present and visible at some poll tick within the timeout, and
returns `false` exactly on the failure conditions under which the
resolving wait `wait_and_get_element` raises. -/
theorem wait_and_check_true_false_iff (dom : DomTrace) (timeout : Nat) :
    (wait_and_check_if_element_exist_or_visible dom timeout = true ↔
      ∃ t, t ≤ timeout ∧ presentAndVisible dom t = true)
    ∧ (wait_and_check_if_element_exist_or_visible dom timeout = false ↔
      ∃ e, wait_and_get_element dom timeout = Except.error e) := by
  constructor
  · rw [← webdriver_wait_until_isSome_iff]
    unfold wait_and_check_if_element_exist_or_visible
    cases hu : webdriver_wait_until (presentAndVisible dom) timeout <;> simp [hu]
  · rw [wait_and_get_element_error_iff]
    unfold wait_and_check_if_element_exist_or_visible
    cases hu : webdriver_wait_until (presentAndVisible dom) timeout <;> simp [hu]

/-! ## C5 — set_text_field leaves exactly the new text -/

/-- C5.  For every document trace, initial field content, input string
and timeout, when `set_text_field` succeeds the `value`
attribute afterwards equals exactly the new string: the clear runs
before the send-keys, so no prior content survives. -/
theorem set_text_field_exact (dom : DomTrace) (f : TextField) (text : String)
    (timeout : Nat) (f2 : TextField)
    (h : set_text_field dom f text timeout = Except.ok f2) :
    f2.value = text := by
  unfold set_text_field clear_text_field at h
  cases hw : wait_and_get_element dom timeout with
  | ok t =>
    rw [hw] at h
    injection h with h1
    rw [← h1]
    show "" ++ text = text
    simp
  | error e =>
    rw [hw] at h
    cases h

/-- Witness for C5: a field pre-populated with `"old"` and set to
`"price"` holds exactly `"price"` afterwards. -/
theorem set_text_field_exact_witness :
    set_text_field domAlways ⟨"old"⟩ "price" 10 = Except.ok ⟨"price"⟩
    ∧ (TextField.mk "price").value = "price" := by
  refine ⟨rfl, set_text_field_exact domAlways ⟨"old"⟩ "price" 10 ⟨"price"⟩ rfl⟩

/-! ## C10 — scope precedence of determine_scope -/

/-- C10.  For every combination of the four CLI granularity flags,
`determine_scope` picks the scope by fixed precedence `--session` over
`--package` over `--module` over `--class`, and returns `"function"`
when none of the four flags is given (the `store_true` defaults). -/
theorem determine_scope_precedence (c : Config) :
    (c.session = true → determine_scope c = "session")
    ∧ (c.session = false → c.package = true → determine_scope c = "package")
    ∧ (c.session = false → c.package = false → c.module = true →
        determine_scope c = "module")
    ∧ (c.session = false → c.package = false → c.module = false → c.«class» = true →
        determine_scope c = "class")
    ∧ (c.session = false → c.package = false → c.module = false → c.«class» = false →
        determine_scope c = "function")
    ∧ determine_scope defaultConfig = "function" := by
  obtain ⟨s, p, m, cl⟩ := c
  cases s <;> cases p <;> cases m <;> cases cl <;>
    simp [determine_scope, defaultConfig]

/-- Witness for C10: with all four flags passed together the session
scope wins; with `--package`, `--module` and `--class` but no
`--session` the package scope wins; with no flags the scope is
per-call. -/
theorem determine_scope_precedence_witness :
    determine_scope ⟨true, true, true, true⟩ = "session"
    ∧ determine_scope ⟨false, true, true, true⟩ = "package"
    ∧ determine_scope defaultConfig = "function" := by
  refine ⟨(determine_scope_precedence ⟨true, true, true, true⟩).1 rfl,
    (determine_scope_precedence ⟨false, true, true, true⟩).2.1 rfl rfl,
    (determine_scope_precedence defaultConfig).2.2.2.2.2⟩

/-! ## C3 — resource release at scope exit -/

/-- A list ending in an explicit concatenated singleton has that element
as its last. -/
theorem getLast_cons_concat {α : Type} (a x : α) (l : List α) :
    (a :: (l ++ [x])).getLast? = some x := by
  rw [← List.cons_append, List.getLast?_concat]

/-- No teardown event hides among the test events of a scope. -/
theorem count_quit_in_tests (tests : List Bool) :
    (tests.map LifeEvent.testRan).count LifeEvent.driverQuit = 0
    ∧ (tests.map LifeEvent.testRan).count LifeEvent.sessionClosed = 0 := by
  constructor <;> simp [List.count_eq_zero]

/-- C3.  For every configured fixture scope, browser parameter and test
outcomes (including the case where every test failed), the run of
`init_driver` quits the WebDriver exactly once, as its final action, and
the run of `init_session` closes the HTTP session exactly once, as its
final action. -/
theorem resource_release_exactly_once (scope : String) (param : BrowserKind)
    (tests : List Bool) :
    (init_driver_run scope param tests).count LifeEvent.driverQuit = 1
    ∧ (init_driver_run scope param tests).getLast? = some LifeEvent.driverQuit
    ∧ (init_session_run scope tests).count LifeEvent.sessionClosed = 1
    ∧ (init_session_run scope tests).getLast? = some LifeEvent.sessionClosed := by
  unfold init_driver_run init_session_run
  by_cases h : scope = "function" ∨ scope = "class" <;>
    simp [h, List.count_append, (count_quit_in_tests tests).1,
      (count_quit_in_tests tests).2, List.getLast?_concat, getLast_cons_concat,
      List.count_singleton, List.count_cons, List.count_nil]

/-! ## C7 — wait_for_element_attribute_content reads only once -/

/-- C7 (amended).  For every document trace, attribute trace, expected
content and timeout, when the element resolves at poll tick `t` the
operation reads the attribute exactly once, at `t`: when that single
read already equals the expected content it returns immediately (sleep
0), and when it differs the operation sleeps for the full timeout and
returns the stale tick-`t` value — it does not poll in a loop, so a
change to the expected content after tick `t` is never observed. -/
theorem wait_for_attr_single_read (dom : DomTrace) (attr : Nat → String)
    (expected : String) (timeout t : Nat)
    (hres : webdriver_wait_until (presentAndVisible dom) timeout = some t) :
    wait_for_element_attribute_content dom attr expected timeout
      = Except.ok (if attr t = expected then 0 else timeout, attr t) := by
  have hok := wait_and_get_element_ok_of_until dom timeout t hres
  unfold wait_for_element_attribute_content get_attribute_content
  rw [hok]
  by_cases h : attr t = expected <;> simp [h]

/-- Witness for C7: on an always-visible element whose attribute
constantly reads `"x"` against expected content `"y"`, the operation
returns after sleeping the full timeout of 3 with the single observed
value `"x"`. -/
theorem wait_for_attr_single_read_witness :
    wait_for_element_attribute_content domAlways (fun _ => "x") "y" 3
      = Except.ok (3, "x") := by
  have h := wait_for_attr_single_read domAlways (fun _ => "x") "y" 3 0 rfl
  simpa using h

/-- Counterexample to C7 as stated: the attribute reaches the expected
content `"b"` at tick 1, strictly before the timeout of 5, yet the
operation returns the tick-0 value `"a"` after sleeping the whole
timeout — the claimed polling loop that would observe the change does
not exist. -/
theorem wait_for_attr_no_polling_loop :
    wait_for_element_attribute_content domAlways attrC "b" 5 = Except.ok (5, "a")
    ∧ attrC 1 = "b"
    ∧ (1 : Nat) < 5
    ∧ ("a" : String) ≠ "b" := by
  refine ⟨rfl, rfl, by decide, by decide⟩


/-! ## C6 — click fallback discipline -/

/-- Errors produced by element resolution are never of the two
interaction-failure classes caught by `click_element`. -/
theorem wait_error_not_interaction (dom : DomTrace) (timeout : Nat) (e : PyExc)
    (h : wait_and_get_element dom timeout = Except.error e) :
    isInteractionExc e.ty = false := by
  rcases wait_and_get_element_error_cases dom timeout e h with h1 | h1 <;>
    subst h1 <;> rfl

/-- C6.  For every click environment, argument kind and timeout:
the action-chain fallback is attempted exactly when a direct click was
attempted and raised `ElementClickInterceptedException` or
`ElementNotInteractableException`; in that case the result of the call is the
result of the fallback, so a failure surfaces only when the fallback also
fails; a successful direct click yields success with no fallback; and a
direct click failing with any other exception surfaces that exception
unchanged with no fallback. -/
theorem click_element_fallback (env : ClickEnv) (isTuple : Bool) (timeout : Nat) :
    (ClickAttempt.actionChain ∈ (click_element env isTuple timeout).2 ↔
      (∃ e, env.direct = Except.error e ∧ isInteractionExc e.ty = true)
        ∧ ClickAttempt.direct ∈ (click_element env isTuple timeout).2)
    ∧ (∀ e, env.direct = Except.error e → isInteractionExc e.ty = true →
        ClickAttempt.direct ∈ (click_element env isTuple timeout).2 →
        (click_element env isTuple timeout).1 = env.chain)
    ∧ (env.direct = Except.ok () → ClickAttempt.direct ∈ (click_element env isTuple timeout).2 →
        (click_element env isTuple timeout).1 = Except.ok ())
    ∧ (∀ e, env.direct = Except.error e → isInteractionExc e.ty = false →
        ClickAttempt.direct ∈ (click_element env isTuple timeout).2 →
        (click_element env isTuple timeout).1 = Except.error e) := by
  cases isTuple with
  | false =>
    cases hd : env.direct with
    | ok u =>
      cases u
      refine ⟨by simp [click_element, hd], ?_, ?_, ?_⟩
      · intro e he
        cases he
      · intro _ _
        simp [click_element, hd]
      · intro e he
        cases he
    | error e =>
      cases hi : isInteractionExc e.ty with
      | true =>
        refine ⟨by simp [click_element, hd, hi], ?_, ?_, ?_⟩
        · intro e2 he2 _ _
          injection he2 with h3
          subst h3
          simp [click_element, hd, hi]
        · intro he2
          cases he2
        · intro e2 he2 hni _
          injection he2 with h3
          subst h3
          rw [hi] at hni
          cases hni
      | false =>
        refine ⟨by simp [click_element, hd, hi], ?_, ?_, ?_⟩
        · intro e2 he2 hi2 _
          injection he2 with h3
          subst h3
          rw [hi] at hi2
          cases hi2
        · intro he2
          cases he2
        · intro e2 he2 _ _
          injection he2 with h3
          subst h3
          simp [click_element, hd, hi]
  | true =>
    cases hw : wait_and_get_element env.dom timeout with
    | ok t =>
      cases hd : env.direct with
      | ok u =>
        cases u
        refine ⟨by simp [click_element, hw, hd], ?_, ?_, ?_⟩
        · intro e he
          cases he
        · intro _ _
          simp [click_element, hw, hd]
        · intro e he
          cases he
      | error e =>
        cases hi : isInteractionExc e.ty with
        | true =>
          refine ⟨by simp [click_element, hw, hd, hi], ?_, ?_, ?_⟩
          · intro e2 he2 _ _
            injection he2 with h3
            subst h3
            simp [click_element, hw, hd, hi]
          · intro he2
            cases he2
          · intro e2 he2 hni _
            injection he2 with h3
            subst h3
            rw [hi] at hni
            cases hni
        | false =>
          refine ⟨by simp [click_element, hw, hd, hi], ?_, ?_, ?_⟩
          · intro e2 he2 hi2 _
            injection he2 with h3
            subst h3
            rw [hi] at hi2
            cases hi2
          · intro he2
            cases he2
          · intro e2 he2 _ _
            injection he2 with h3
            subst h3
            simp [click_element, hw, hd, hi]
    | error e =>
      have hni : isInteractionExc e.ty = false := wait_error_not_interaction _ _ _ hw
      refine ⟨by simp [click_element, hw, hni], ?_, ?_, ?_⟩
      · intro e2 _ _ hmem
        simp [click_element, hw, hni] at hmem
      · intro _ hmem
        simp [click_element, hw, hni] at hmem
      · intro e2 _ _ hmem
        simp [click_element, hw, hni] at hmem

/-- Witness for C6: a direct click intercepted by an overlay falls back
to the action-chain click and the call succeeds without surfacing the
interception. -/
theorem click_element_fallback_witness :
    (click_element clickEnvW true 3).1 = Except.ok ()
    ∧ ClickAttempt.actionChain ∈ (click_element clickEnvW true 3).2 := by
  refine ⟨(click_element_fallback clickEnvW true 3).2.1
    ⟨ExcType.elementClickInterceptedException, "element click intercepted",
      ["WebElement.click"]⟩ rfl rfl (by decide), by decide⟩

/-! ## C8 — navigation guard: override placement and alert handling -/

/-- C8 (amended).  For every navigation environment, URL and nuke flag:
on the success path both `beforeunload` overrides are installed exactly
once, immediately AFTER the navigation/refresh (none is installed before
it); and whenever the browser raises
`UnexpectedAlertPresentException` — during the navigation itself or
while installing the overrides — the exception is captured and re-raised
via the meta-raise discipline (never swallowed). -/
theorem nav_guard_override_after (env : NavEnv) (url : String) (nuke : Bool) :
    (env.getRaises = false → env.scriptRaises = false →
        (go_to_link env url nuke).1 = Except.ok ()
      ∧ overrideInstalledBefore (go_to_link env url nuke).2 = false
      ∧ overridesInstalledAfter (go_to_link env url nuke).2 = true
      ∧ (refresh_page env nuke).1 = Except.ok ()
      ∧ overrideInstalledBefore (refresh_page env nuke).2 = false
      ∧ overridesInstalledAfter (refresh_page env nuke).2 = true)
    ∧ (env.getRaises = true ∨ env.scriptRaises = true →
        (go_to_link env url nuke).1 = Except.error (meta_raise (get_exception alertErr))
      ∧ (refresh_page env nuke).1 = Except.error (meta_raise (get_exception alertErr))) := by
  obtain ⟨g, s⟩ := env
  constructor
  · intro hg hs
    subst hg
    subst hs
    cases nuke <;>
      simp [go_to_link, refresh_page, override_beforeunload_events,
        overrideInstalledBefore, overridesInstalledAfter, isNavEvent, isOverrideEvent,
        List.takeWhile, List.dropWhile]
  · intro h
    cases g <;> cases s <;> cases nuke <;>
      simp [go_to_link, refresh_page, override_beforeunload_events] <;>
      simp at h

/-- Witness for C8: on a clean navigation to a concrete URL the call
succeeds, no override precedes the navigation, and both overrides
follow it. -/
theorem nav_guard_override_after_witness :
    (go_to_link ⟨false, false⟩ "https://www.chatbot.com/chatbot-demo/" false).1
      = Except.ok ()
    ∧ overridesInstalledAfter
        (go_to_link ⟨false, false⟩ "https://www.chatbot.com/chatbot-demo/" false).2 = true := by
  have h := (nav_guard_override_after ⟨false, false⟩
    "https://www.chatbot.com/chatbot-demo/" false).1 rfl rfl
  exact ⟨h.1, h.2.2.1⟩

/-- Counterexample to C8 as stated: on the plain success path the trace
of `go_to_link` (and of `refresh_page`) starts with the navigation
itself — no override is installed BEFORE the navigation/refresh,
contradicting the claim that the overrides are installed both before
and after. -/
theorem nav_guard_no_override_before :
    (go_to_link ⟨false, false⟩ "https://www.chatbot.com/chatbot-demo/" false).2
      = [NavEvent.navigate "https://www.chatbot.com/chatbot-demo/",
         NavEvent.overrideReturnValue, NavEvent.overrideOnBeforeUnload]
    ∧ overrideInstalledBefore
        (go_to_link ⟨false, false⟩ "https://www.chatbot.com/chatbot-demo/" false).2 = false
    ∧ (refresh_page ⟨false, false⟩ false).2
      = [NavEvent.refresh, NavEvent.overrideReturnValue, NavEvent.overrideOnBeforeUnload]
    ∧ overrideInstalledBefore (refresh_page ⟨false, false⟩ false).2 = false := by
  refine ⟨rfl, by decide, rfl, by decide⟩

/-! ## C9 — the scroll primitive reads the height once and ignores the
target while scrolling -/

/-- Membership in the trace of the scroll loop: exactly the multiples of
`step` offset from the start that lie under the fixed bound
`sh + step`. -/
theorem scrollLoop_mem_aux (step : Nat) (hstep : 0 < step) (sh : Nat) :
    ∀ (fuel h0 x : Nat), sh + step - h0 ≤ fuel →
      (ScrollEvent.scrollTo x ∈ scrollLoop sh step hstep h0 ↔
        (∃ i, x = h0 + i * step) ∧ x < sh + step) := by
  intro fuel
  induction fuel with
  | zero =>
    intro h0 x hf
    rw [scrollLoop.eq_def, if_neg (by omega)]
    simp only [List.not_mem_nil, false_iff]
    rintro ⟨⟨i, hx⟩, hxlt⟩
    have hge : h0 ≤ x := by
      rw [hx]
      exact Nat.le_add_right h0 (i * step)
    omega
  | succ n ih =>
    intro h0 x hf
    by_cases hlt : h0 < sh + step
    · rw [scrollLoop.eq_def, if_pos hlt, List.mem_cons,
        ih (h0 + step) x (by omega)]
      constructor
      · rintro (h1 | ⟨⟨i, hx⟩, hxlt⟩)
        · injection h1 with h2
          refine ⟨⟨0, by simpa using h2⟩, by omega⟩
        · exact ⟨⟨i + 1, by rw [hx]; ring⟩, hxlt⟩
      · rintro ⟨⟨i, hx⟩, hxlt⟩
        cases i with
        | zero =>
          left
          simp only [Nat.zero_mul, Nat.add_zero] at hx
          rw [hx]
        | succ i2 =>
          right
          exact ⟨⟨i2, by rw [hx]; ring⟩, hxlt⟩
    · rw [scrollLoop.eq_def, if_neg hlt]
      simp only [List.not_mem_nil, false_iff]
      rintro ⟨⟨i, hx⟩, hxlt⟩
      have hge : h0 ≤ x := by
        rw [hx]
        exact Nat.le_add_right h0 (i * step)
      omega

/-- Specialization of `scrollLoop_mem_aux` discharging the fuel. -/
theorem scrollLoop_mem (sh step : Nat) (hstep : 0 < step) (h0 x : Nat) :
    ScrollEvent.scrollTo x ∈ scrollLoop sh step hstep h0 ↔
      (∃ i, x = h0 + i * step) ∧ x < sh + step :=
  scrollLoop_mem_aux step hstep sh (sh + step - h0) h0 x (Nat.le_refl _)

/-- The scroll loop never reads the scroll height: its trace filters to
nothing under `isReadHeight`. -/
theorem scrollLoop_no_reads_aux (step : Nat) (hstep : 0 < step) (sh : Nat) :
    ∀ (fuel h0 : Nat), sh + step - h0 ≤ fuel →
      (scrollLoop sh step hstep h0).filter isReadHeight = [] := by
  intro fuel
  induction fuel with
  | zero =>
    intro h0 hf
    rw [scrollLoop.eq_def, if_neg (by omega)]
    rfl
  | succ n ih =>
    intro h0 hf
    by_cases hlt : h0 < sh + step
    · rw [scrollLoop.eq_def, if_pos hlt, List.filter_cons]
      simp only [isReadHeight, Bool.false_eq_true, if_false]
      exact ih (h0 + step) (by omega)
    · rw [scrollLoop.eq_def, if_neg hlt]
      rfl

/-- Specialization of `scrollLoop_no_reads_aux` discharging the fuel. -/
theorem scrollLoop_no_reads (sh step : Nat) (hstep : 0 < step) (h0 : Nat) :
    (scrollLoop sh step hstep h0).filter isReadHeight = [] :=
  scrollLoop_no_reads_aux step hstep sh (sh + step - h0) h0 (Nat.le_refl _)

/-- C9 (amended).  For every scroll environment and positive step, once
the scrollable container resolves: the primitive reads the
scroll height exactly once (the single initial read — it is never
re-polled); the scroll commands it issues are exactly the multiples of
`step` below that initially read height plus one step, regardless of
when the target becomes present or visible (it never stops early); and
its result is the final `wait_and_get_element` resolution of the
target. -/
theorem scroll_and_get_properties (env : ScrollEnv) (tN w h0 step : Nat)
    (hstep : 0 < step) (t : Nat)
    (hres : wait_and_get_element env.scrollableDom 5 = Except.ok t) :
    ((scroll_and_get_until_element_exist_or_visible env tN w h0 step hstep).2.filter
        isReadHeight) = [ScrollEvent.readHeight (env.heightAtRead 0)]
    ∧ (∀ x, ScrollEvent.scrollTo x ∈
          (scroll_and_get_until_element_exist_or_visible env tN w h0 step hstep).2 ↔
        (∃ i, x = i * step) ∧ x < env.heightAtRead 0 + step)
    ∧ (scroll_and_get_until_element_exist_or_visible env tN w h0 step hstep).1
        = wait_and_get_element env.targetDom 15 := by
  refine ⟨?_, ?_, ?_⟩
  · simp only [scroll_and_get_until_element_exist_or_visible, hres, List.filter_cons]
    simp [isReadHeight, scrollLoop_no_reads]
  · intro x
    simp only [scroll_and_get_until_element_exist_or_visible, hres, List.mem_cons]
    rw [scrollLoop_mem]
    simp
  · simp only [scroll_and_get_until_element_exist_or_visible, hres]

/-- Witness for C9: with everything resolving and a constant scroll
height of 100, the trace contains exactly the one initial height
read. -/
theorem scroll_and_get_properties_witness :
    ((scroll_and_get_until_element_exist_or_visible scrollEnvW 0 0 0 100
        (by norm_num)).2.filter isReadHeight) = [ScrollEvent.readHeight 100] := by
  have h := scroll_and_get_properties scrollEnvW 0 0 0 100 (by norm_num) 0 rfl
  exact h.1

/-- Counterexample to C9 as stated: the target is present and visible
from tick 0 — so a "scroll until the target exists or becomes visible"
would stop before scrolling — yet two scroll commands are issued; and
the height is read exactly once even though a re-poll (read index 1)
would have returned 1000, so content loaded during scrolling does not
extend the search (no scroll beyond 100 occurs). -/
theorem scroll_and_get_no_repoll :
    (scroll_and_get_until_element_exist_or_visible scrollEnvC 0 0 0 100
        (by norm_num)).2
      = [ScrollEvent.readHeight 100, ScrollEvent.scrollTo 0, ScrollEvent.scrollTo 100]
    ∧ presentAndVisible scrollEnvC.targetDom 0 = true
    ∧ scrollEnvC.heightAtRead 1 = 1000 := by
  refine ⟨?_, by decide, by decide⟩
  have hw : wait_and_get_element scrollEnvC.scrollableDom 5 = Except.ok 0 := rfl
  simp only [scroll_and_get_until_element_exist_or_visible, hw]
  have hh : scrollEnvC.heightAtRead 0 = 100 := rfl
  rw [hh]
  simp [scrollLoop.eq_def]

/-! ## C1 — incremental-skip law -/

/-- Running a group produces one outcome per item. -/
theorem runAll_length (st : Option Item) (items : List Item) :
    (runAll st items).length = items.length := by
  induction items generalizing st with
  | nil => rfl
  | cons i rest ih => simp [runAll, ih]

/-- Once the failure marker is set, every remaining incremental item of
the group is skipped with a reason naming the recorded failed test. -/
theorem runAll_after_marker (prev : Item) (items : List Item)
    (hinc : ∀ i ∈ items, i.incremental = true) :
    runAll (some prev) items
      = items.map (fun _ => Outcome.skipped (skipReason prev)) := by
  induction items with
  | nil => rfl
  | cons i rest ih =>
    have hi : i.incremental = true := hinc i (List.mem_cons_self i rest)
    simp only [runAll, runItem, pytest_runtest_call, hi, if_pos, List.map_cons]
    rw [ih (fun x hx => hinc x (List.mem_cons_of_mem i hx))]

/-- Indexing a constant-map list inside its bounds yields the
constant. -/
theorem getD_map_const (rest : List Item) (j : Nat) (o : Outcome) (hj : j < rest.length) :
    (rest.map (fun _ => o)).getD j Outcome.passed = o := by
  induction rest generalizing j with
  | nil => simp at hj
  | cons a l ih =>
    cases j with
    | zero => rfl
    | succ j2 => simpa using ih j2 (by simpa using hj)

/-- Generalized skip law over an arbitrary initial marker state. -/
theorem runAll_skip_after_fail (items : List Item) (st : Option Item)
    (hinc : ∀ i ∈ items, i.incremental = true) (k j : Nat) (hkj : k < j)
    (hj : j < items.length)
    (hfail : (runAll st items).getD k Outcome.passed = Outcome.failed) :
    (runAll st items).getD j Outcome.passed
      = Outcome.skipped (skipReason (items.getD k ⟨"", false, false⟩)) := by
  induction items generalizing st k j with
  | nil => simp at hj
  | cons i rest ih =>
    have hi : i.incremental = true := hinc i (List.mem_cons_self i rest)
    have hrest : ∀ x ∈ rest, x.incremental = true :=
      fun x hx => hinc x (List.mem_cons_of_mem i hx)
    cases k with
    | zero =>
      cases j with
      | zero => omega
      | succ j2 =>
        have hj2 : j2 < rest.length := by
          simp at hj
          omega
        cases st with
        | some prev =>
          exfalso
          simp [runAll, runItem, pytest_runtest_call, hi] at hfail
        | none =>
          cases hcf : i.callFails with
          | false =>
            exfalso
            simp [runAll, runItem, pytest_runtest_call, hcf] at hfail
          | true =>
            simp only [runAll, runItem, pytest_runtest_call, makereport_update, hcf,
              hi, Bool.and_self, if_pos, List.getD_cons_succ, List.getD_cons_zero]
            rw [runAll_after_marker i rest hrest]
            exact getD_map_const rest j2 _ hj2
    | succ k2 =>
      cases j with
      | zero => omega
      | succ j2 =>
        have hj2 : j2 < rest.length := by
          simp at hj
          omega
        have hfail2 : (runAll (runItem st i).2 rest).getD k2 Outcome.passed
            = Outcome.failed := by
          simpa [runAll, List.getD_cons_succ] using hfail
        have hres := ih (runItem st i).2 hrest k2 j2 (by omega) hj2 hfail2
        simpa [runAll, List.getD_cons_succ] using hres

/-- C1.  Within one all-incremental group run in declared order from a
clean marker, if the test at position `k` fails during its call phase
then every later test of the group (any position `j > k`, however many
there are) is skipped, with the skip reason naming the failed test at
position `k`. -/
theorem incremental_skip_law (items : List Item)
    (hinc : ∀ i ∈ items, i.incremental = true)
    (k j : Nat) (hkj : k < j) (hj : j < items.length)
    (hfail : (runAll Option.none items).getD k Outcome.passed = Outcome.failed) :
    (runAll Option.none items).getD j Outcome.passed
      = Outcome.skipped (skipReason (items.getD k ⟨"", false, false⟩)) :=
  runAll_skip_after_fail items Option.none hinc k j hkj hj hfail

/-- Witness for C1: in a three-test incremental group whose second test
fails, the third is skipped with a reason naming the second. -/
theorem incremental_skip_law_witness :
    (runAll Option.none itemsW).getD 2 Outcome.passed
      = Outcome.skipped
          ("Skipping current test after failure of the previous test: " ++ "t2") := by
  have h := incremental_skip_law itemsW (by decide) 1 2 (by omega) (by decide) (by decide)
  exact h
